import Mathlib

/-!
Verification of the vaelen/iot device runtime ("Thing") against its
natural-language specification.

The development shallowly embeds the current (context/clock based) variant of
the Go sources: `thing.go`, `iot.go` (types and option defaults), `mock.go`
(the mock MQTT client) and `paho/paho.go` (the Eclipse Paho backed client).
Go machine values are modelled as follows: `time.Duration` and nanosecond
timestamps are `Int` (no arithmetic here approaches the int64 range),
`[]byte` payloads are `List UInt8`, Go `nil` pointers/interfaces are `Option`,
Go maps are association lists keyed by `String`, and a function that can
panic through a nil dereference returns an explicit `crash` outcome.
Logger sinks are modelled as opaque tags because no verified property
observes log text.
-/

/-- Go time.Duration of one second in nanoseconds. -/
def goSecond : Int := 1000000000

/-- Go time.Minute. -/
def goMinute : Int := 60 * goSecond

/-- Go time.Hour. -/
def goHour : Int := 60 * goMinute

/-- iot.go: DefaultAuthTokenExpiration = time.Hour. -/
def defaultAuthTokenExpiration : Int := goHour

/-- Go time.Time.Unix(): whole seconds since the epoch (floor), for a
timestamp held in nanoseconds. -/
def unixOf (tNanos : Int) : Int := tNanos / goSecond

/-- Payload bytes ([]byte in Go). -/
abbrev Bytes := List UInt8

/-- iot.go: the ID structure naming a device. -/
structure ID where
  projectID : String
  location : String
  registry : String
  deviceID : String
deriving DecidableEq

/-- iot.go: CredentialTypeRSA. -/
def CredentialTypeRSA : Nat := 0

/-- iot.go: CredentialTypeEC. -/
def CredentialTypeEC : Nat := 1

/-- The opaque signing key held in Credentials.PrivateKey.  Signing with a
well formed key succeeds deterministically; a malformed key makes
SignedString fail.  The key identity is a tag so distinct keys give
distinct tokens. -/
inductive PrivateKey where
  | valid (keyTag : Nat)
  | invalid (reason : String)
deriving DecidableEq

/-- iot.go: Credentials (the TLS certificate is only handed to the transport
and never read by the core, so it is not modelled). -/
structure Credentials where
  type : Nat
  privateKey : PrivateKey
deriving DecidableEq

/-- jwt.StandardClaims as filled in by thing.authToken. -/
structure StandardClaims where
  issuedAt : Int
  expiresAt : Int
  audience : String
deriving DecidableEq

/-- thing.go authToken: the signing method chosen from the credential type
(switch with fallthrough: EC gives ES256, RSA and every other value of the
uint8 tag give RS256). -/
def signingMethodOf (credType : Nat) : String :=
  if credType = CredentialTypeEC then "ES256" else "RS256"

/-- jwt SignedString: fails on a malformed key, otherwise produces a token
determined by the algorithm, the claims and the key. -/
def signedString (alg : String) (c : StandardClaims) (k : PrivateKey) :
    Except String String :=
  match k with
  | .invalid reason => .error reason
  | .valid keyTag =>
      .ok (alg ++ "." ++ toString c.issuedAt ++ "." ++ toString c.expiresAt
        ++ "." ++ c.audience ++ "." ++ toString keyTag)

/-- thing.go authToken, claims part: expirationInterval defaults to one hour
when zero (the source reads time.Now() twice; both reads are modelled as the
same instant `now`). -/
def authTokenClaims (authTokenExpiration : Int) (projectID : String)
    (now : Int) : StandardClaims :=
  let expirationInterval :=
    if authTokenExpiration = 0 then goHour else authTokenExpiration
  { issuedAt := unixOf now
    expiresAt := unixOf (now + expirationInterval)
    audience := projectID }

/-- thing.go authToken: build the claims and sign them with the private key,
the method selected by the credential type. -/
def authToken (creds : Credentials) (authTokenExpiration : Int)
    (projectID : String) (now : Int) : Except String String :=
  signedString (signingMethodOf creds.type)
    (authTokenClaims authTokenExpiration projectID now) creds.privateKey

/-- thing.go Connect: the credentials-provider closure installed on the MQTT
client.  A token generation failure is logged and turned into the pair of
empty strings; success yields username "unused" and the token. -/
def credentialsProvider (creds : Credentials) (authTokenExpiration : Int)
    (projectID : String) (now : Int) : String × String :=
  match authToken creds authTokenExpiration projectID now with
  | .error _ => ("", "")
  | .ok tok => ("unused", tok)

/-- strings.Join from the Go standard library: empty list gives "", a
singleton gives its element, otherwise a builder writes the head and then
separator/element pairs (a left fold). -/
def goStringsJoin (elems : List String) (sep : String) : String :=
  match elems with
  | [] => ""
  | [x] => x
  | x :: rest => List.foldl (fun b s => b ++ sep ++ s) x rest

/-- thing.go clientID. -/
def clientID (i : ID) : String :=
  "projects/" ++ i.projectID ++ "/locations/" ++ i.location
    ++ "/registries/" ++ i.registry ++ "/devices/" ++ i.deviceID

/-- thing.go configTopic. -/
def configTopic (i : ID) : String := "/devices/" ++ i.deviceID ++ "/config"

/-- thing.go stateTopic. -/
def stateTopic (i : ID) : String := "/devices/" ++ i.deviceID ++ "/state"

/-- thing.go eventsTopic: the base events topic for no segments, otherwise
the base, a slash, and the segments joined by slashes. -/
def eventsTopic (i : ID) (subTopic : List String) : String :=
  if subTopic.length = 0 then "/devices/" ++ i.deviceID ++ "/events"
  else "/devices/" ++ i.deviceID ++ "/events/" ++ goStringsJoin subTopic "/"

/-- A log sink (iot.Logger).  Modelled as an opaque tag: no verified claim
observes log output, only whether a sink is present and which sink was
installed where. -/
abbrev Logger := Nat

/-- benbjohnson/clock: clock.New() gives the real system clock; tests inject
mock clocks. -/
inductive ClockModel where
  | systemClock
  | testClock (tag : Nat)
deriving DecidableEq

/-- The caller-supplied ConfigHandler.  The handler receives the raw config
payload; its only effect visible to this model is whether it synchronously
calls PublishState and with which payload, so it is modelled as that
decision. -/
abbrev CHandler := Bytes → Option Bytes

/-- The error values of iot.go (ErrNotConnected, ErrPublishFailed,
ErrConfigurationError, ErrCancelled) plus arbitrary other Go errors. -/
inductive GoErr where
  | notConnected
  | publishFailed
  | configurationError
  | cancelled
  | generic (msg : String)
deriving DecidableEq

/-- The observable result of a call that in Go either returns an error value
(possibly nil) or panics on a nil dereference. -/
inductive Outcome where
  | ok
  | fail (e : GoErr)
  | crash
deriving DecidableEq

/-- Convert a Go error return into an Outcome. -/
def goErrOutcome : Option GoErr → Outcome
  | none => .ok
  | some e => .fail e

/-- The operations a thing invokes on its MQTTClient, in order.  Read-only
IsConnected queries are not recorded. -/
inductive ClientOp where
  | newClientOp
  | setDebugLoggerOp
  | setInfoLoggerOp
  | setErrorLoggerOp
  | setClientIDOp (id : String)
  | setCredentialsProviderOp
  | connectOp (servers : List String)
  | subscribeOp (topic : String)
  | unsubscribeOp (topic : String)
  | publishOp (topic : String)
  | disconnectOp
deriving DecidableEq

/-- iot.go ThingOptions.  Loggers are opaque tags; the Certificate inside
Credentials is not modelled (it is only handed to TLS inside the transport). -/
structure ThingOptions where
  id : Option ID
  credentials : Option Credentials
  debugLogger : Option Logger
  infoLogger : Option Logger
  errorLogger : Option Logger
  logMQTT : Bool
  queueDirectory : String
  configHandler : Option CHandler
  configQOS : Nat
  stateQOS : Nat
  eventQOS : Nat
  authTokenExpiration : Int
  clock : Option ClockModel

/-- Association-list lookup for a Go map keyed by strings. -/
def mapLookup {α : Type} (m : List (String × α)) (k : String) : Option α :=
  match m with
  | [] => none
  | (k0, v0) :: rest => if k0 = k then some v0 else mapLookup rest k

/-- Association-list assignment for a Go map keyed by strings. -/
def mapSet {α : Type} (m : List (String × α)) (k : String) (v : α) :
    List (String × α) :=
  match m with
  | [] => [(k, v)]
  | (k0, v0) :: rest =>
      if k0 = k then (k, v) :: rest else (k0, v0) :: mapSet rest k v

/-- Association-list deletion for a Go map keyed by strings. -/
def mapDelete {α : Type} (m : List (String × α)) (k : String) :
    List (String × α) :=
  match m with
  | [] => []
  | (k0, v0) :: rest =>
      if k0 = k then mapDelete rest k else (k0, v0) :: mapDelete rest k

/-- The iot.MQTTClient capability interface, as a record of pure state
transformers over a client state type.  The Bool argument of the
context-taking operations is whether the caller's context is already
cancelled or expired when the call is made. -/
structure MQTTClientModel (σ : Type) where
  isConnected : σ → Bool
  connect : σ → Bool → List String → Option GoErr × σ
  disconnect : σ → Bool → Option GoErr × σ
  publish : σ → Bool → String → Nat → Bytes → Option GoErr × σ
  subscribe : σ → Bool → String → Nat → Option CHandler → Option GoErr × σ
  unsubscribe : σ → Bool → String → Option GoErr × σ
  setDebugLogger : σ → Option Logger → σ
  setInfoLogger : σ → Option Logger → σ
  setErrorLogger : σ → Option Logger → σ
  setClientID : σ → String → σ
  setCredentialsProvider : σ → σ

/-- thing.go: the thing struct.  options is a pointer shared with the
caller, client is nil until Connect constructs one, publishTicker is nil
(modelled as ticker = false) until Connect creates it. -/
structure ThingState (σ : Type) where
  opts : ThingOptions
  client : Option σ
  ticker : Bool

/-- thing.go IsConnected: a client exists and reports itself connected. -/
def thingIsConnected {σ : Type} (m : MQTTClientModel σ) (st : ThingState σ) :
    Bool :=
  match st.client with
  | none => false
  | some c => m.isConnected c

/-- thing.go publish: first receives from publishTicker.C (a nil ticker is a
nil dereference; the tick itself always arrives under the real clock and is
not interruptible by the context), then calls the client's Publish and
returns its error verbatim.  A nil client is likewise a nil dereference. -/
def thingPublish {σ : Type} (m : MQTTClientModel σ) (ctxDone : Bool)
    (topic : String) (qos : Nat) (message : Bytes) (st : ThingState σ) :
    Outcome × ThingState σ × List ClientOp :=
  if st.ticker = false then (.crash, st, [])
  else
    match st.client with
    | none => (.crash, st, [])
    | some c =>
        let r := m.publish c ctxDone topic qos message
        (goErrOutcome r.1, { st with client := some r.2 }, [.publishOp topic])

/-- thing.go PublishState: publish to the state topic with StateQOS (the
topic is computed first, so a nil ID is a nil dereference before the tick
wait). -/
def thingPublishState {σ : Type} (m : MQTTClientModel σ) (ctxDone : Bool)
    (message : Bytes) (st : ThingState σ) :
    Outcome × ThingState σ × List ClientOp :=
  match st.opts.id with
  | none => (.crash, st, [])
  | some i => thingPublish m ctxDone (stateTopic i) st.opts.stateQOS message st

/-- thing.go PublishEvent: publish to the derived events topic with
EventQOS. -/
def thingPublishEvent {σ : Type} (m : MQTTClientModel σ) (ctxDone : Bool)
    (message : Bytes) (event : List String) (st : ThingState σ) :
    Outcome × ThingState σ × List ClientOp :=
  match st.opts.id with
  | none => (.crash, st, [])
  | some i =>
      thingPublish m ctxDone (eventsTopic i event) st.opts.eventQOS message st

/-- thing.go Connect.  Fast path: already connected returns nil untouched.
Missing ID or Credentials is ErrConfigurationError before any client
operation.  Otherwise the zero AuthTokenExpiration and nil Clock option
fields are defaulted in place, a fresh client is constructed and configured
(loggers only under LogMQTT, client id, credentials provider), the publish
ticker is created, and the client's own Connect runs with the caller's
context; its error is returned verbatim.  On success the on-connect handler
installed via SetOnConnectHandler fires and subscribes the configuration
topic with ConfigQOS and the caller's ConfigHandler.  That last firing step
is Modelled from the spec: the snapshot of mock.go in the sources predates
SetOnConnectHandler, so the mock-side plumbing that runs the handler inside
a successful Connect is taken from spec section 4.3 and the repository's
tests rather than from a source file. -/
def thingConnect {σ : Type} (m : MQTTClientModel σ) (newC : ThingOptions → σ)
    (ctxDone : Bool) (servers : List String) (st : ThingState σ) :
    Option GoErr × ThingState σ × List ClientOp :=
  if thingIsConnected m st then (none, st, [])
  else
    match st.opts.id, st.opts.credentials with
    | some i, some _ =>
        let o1 := { st.opts with authTokenExpiration :=
          if st.opts.authTokenExpiration = 0 then defaultAuthTokenExpiration
          else st.opts.authTokenExpiration }
        let o2 := { o1 with clock :=
          if o1.clock = none then some ClockModel.systemClock else o1.clock }
        let c0 := newC o2
        let afterLog :=
          if o2.logMQTT then
            (m.setErrorLogger
              (m.setInfoLogger (m.setDebugLogger c0 o2.debugLogger)
                o2.infoLogger) o2.errorLogger,
             [ClientOp.setDebugLoggerOp, ClientOp.setInfoLoggerOp,
              ClientOp.setErrorLoggerOp])
          else (c0, ([] : List ClientOp))
        let c2 := m.setClientID afterLog.1 (clientID i)
        let c3 := m.setCredentialsProvider c2
        let r := m.connect c3 ctxDone servers
        match r.1 with
        | some e =>
            (some e, { opts := o2, client := some r.2, ticker := true },
              ClientOp.newClientOp :: afterLog.2
                ++ [ClientOp.setClientIDOp (clientID i),
                    ClientOp.setCredentialsProviderOp,
                    ClientOp.connectOp servers])
        | none =>
            let rs := m.subscribe r.2 ctxDone (configTopic i) o2.configQOS
              o2.configHandler
            (none, { opts := o2, client := some rs.2, ticker := true },
              ClientOp.newClientOp :: afterLog.2
                ++ [ClientOp.setClientIDOp (clientID i),
                    ClientOp.setCredentialsProviderOp,
                    ClientOp.connectOp servers,
                    ClientOp.subscribeOp (configTopic i)])
    | _, _ => (some .configurationError, st, [])

/-- thing.go Disconnect: a nil client is a no-op; otherwise the
configuration topic is unsubscribed with the result discarded, and only if
the client still reports connected is its Disconnect requested.  Computing
the config topic dereferences the ID. -/
def thingDisconnect {σ : Type} (m : MQTTClientModel σ) (ctxDone : Bool)
    (st : ThingState σ) : Outcome × ThingState σ × List ClientOp :=
  match st.client with
  | none => (.ok, st, [])
  | some c =>
      match st.opts.id with
      | none => (.crash, st, [])
      | some i =>
          let r := m.unsubscribe c ctxDone (configTopic i)
          if m.isConnected r.2 then
            let rd := m.disconnect r.2 ctxDone
            (.ok, { st with client := some rd.2 },
              [.unsubscribeOp (configTopic i), .disconnectOp])
          else
            (.ok, { st with client := some r.2 },
              [.unsubscribeOp (configTopic i)])

/-- mock.go MockMQTTClient: the observable fields (the thing and options
back-references are carried by the enclosing ThingState). -/
structure MockState where
  connected : Bool
  connectedTo : List String
  messages : List (String × List Bytes)
  subs : List (String × Option CHandler)
  debugLogger : Option Logger
  infoLogger : Option Logger
  errorLogger : Option Logger
  clientID : String
  credentialsProviderSet : Bool

/-- mock.go NewMockClient: empty maps, zero-valued fields. -/
def newMockClient : MockState :=
  { connected := false, connectedTo := [], messages := [], subs := []
    debugLogger := none, infoLogger := none, errorLogger := none
    clientID := "", credentialsProviderSet := false }

/-- mock.go Publish: append the payload to the Messages map under the
topic, creating the entry when absent. -/
def mockMessagesAppend (msgs : List (String × List Bytes)) (topic : String)
    (payload : Bytes) : List (String × List Bytes) :=
  mapSet msgs topic ((mapLookup msgs topic).getD [] ++ [payload])

/-- mock.go methods as an MQTTClientModel: Connect records the servers and
sets Connected, Disconnect clears them, Publish appends to Messages,
Subscribe and Unsubscribe edit the Subscriptions map, setters store their
argument.  All of them return a nil error. -/
def mockModel : MQTTClientModel MockState where
  isConnected c := c.connected
  connect c _ servers := (none, { c with connected := true, connectedTo := servers })
  disconnect c _ := (none, { c with connected := false, connectedTo := [] })
  publish c _ topic _ payload :=
    (none, { c with messages := mockMessagesAppend c.messages topic payload })
  subscribe c _ topic _ callback :=
    (none, { c with subs := mapSet c.subs topic callback })
  unsubscribe c _ topic := (none, { c with subs := mapDelete c.subs topic })
  setDebugLogger c l := { c with debugLogger := l }
  setInfoLogger c l := { c with infoLogger := l }
  setErrorLogger c l := { c with errorLogger := l }
  setClientID c s := { c with clientID := s }
  setCredentialsProvider c := { c with credentialsProviderSet := true }

/-- mock.go Receive: look the topic up in Subscriptions; a present, non-nil
handler is invoked once with the thing and the exact payload.  The returned
list records the payloads the caller-supplied handler was invoked with;
when the handler synchronously calls PublishState (CHandler yields a
payload) that publish runs against the same thing with a background
context. -/
def mockReceive (st : ThingState MockState) (topic : String)
    (message : Bytes) : List Bytes × ThingState MockState :=
  match st.client with
  | none => ([], st)
  | some c =>
      match mapLookup c.subs topic with
      | some (some handler) =>
          match handler message with
          | some statePayload =>
              ([message], (thingPublishState mockModel false statePayload st).2.1)
          | none => ([message], st)
      | _ => ([], st)

/-- paho/paho.go MQTTClient: the inner Eclipse Paho client is modelled by
whether it exists and is connected, the wire-level publishes it has
dispatched, its subscriptions and brokers, and the acknowledgement errors
the broker would produce for a connect (connectErr) or any later
publish/subscribe token (tokenErr). -/
structure PahoState where
  innerExists : Bool
  innerConnected : Bool
  connectErr : Option GoErr
  tokenErr : Option GoErr
  wire : List (String × Bytes)
  subscribed : List String
  brokers : List String
  clientID : String
  credentialsProviderSet : Bool
deriving DecidableEq

/-- paho.go waitForToken: a goroutine polls the token while the select also
watches ctx.Done().  When the context is already done at entry the
cancellation branch is taken and ErrCancelled returned (the operation the
token belongs to has already been dispatched and is not aborted); otherwise
the token is waited out and its error returned. -/
def waitForToken (ctxDone : Bool) (tokenErr : Option GoErr) : Option GoErr :=
  if ctxDone then some .cancelled else tokenErr

/-- paho.go IsConnected: false for a nil inner client, else the inner
client's own connectivity. -/
def pahoIsConnected (c : PahoState) : Bool := c.innerExists && c.innerConnected

/-- paho.go methods as an MQTTClientModel.  Connect builds the inner client
from the brokers and waits its token; Publish, Subscribe and Unsubscribe
refuse with ErrNotConnected when not connected, otherwise dispatch the
operation and wait its token; Disconnect tears down the inner client only
when connected; the logger setters write package-level mqtt loggers and do
not change client state. -/
def pahoModel : MQTTClientModel PahoState where
  isConnected := pahoIsConnected
  connect c ctxDone servers :=
    let c1 : PahoState :=
      { c with
        innerExists := true
        innerConnected := c.connectErr.isNone
        brokers := servers }
    (waitForToken ctxDone c.connectErr, c1)
  disconnect c _ :=
    if pahoIsConnected c then (none, { c with innerExists := false }) else (none, c)
  publish c ctxDone topic _ payload :=
    if pahoIsConnected c = false then (some .notConnected, c)
    else
      (waitForToken ctxDone c.tokenErr,
        { c with wire := c.wire ++ [(topic, payload)] })
  subscribe c ctxDone topic _ _ :=
    if pahoIsConnected c = false then (some .notConnected, c)
    else
      (waitForToken ctxDone c.tokenErr,
        { c with subscribed := c.subscribed ++ [topic] })
  unsubscribe c ctxDone topic :=
    if pahoIsConnected c = false then (some .notConnected, c)
    else
      (waitForToken ctxDone c.tokenErr,
        { c with subscribed := c.subscribed.filter (fun t => !(t == topic)) })
  setDebugLogger c _ := c
  setInfoLogger c _ := c
  setErrorLogger c _ := c
  setClientID c s := { c with clientID := s }
  setCredentialsProvider c := { c with credentialsProviderSet := true }

/-- Modelled from the spec (wording of claim C1): the configured expiration
clamped to the range [10 minutes, 24 hours], with 1 hour used for zero.
This is the spec-side formulation, to be compared against the code-side
authTokenClaims. -/
def specClampedExpiration (d : Int) : Int :=
  if d = 0 then goHour else max (10 * goMinute) (min d (24 * goHour))

/-- A sample device identity used for concrete evaluations. -/
def sampleID : ID := ⟨"p", "l", "r", "d"⟩

/-- Sample credentials with a well formed RSA key. -/
def sampleCreds : Credentials := ⟨CredentialTypeRSA, .valid 1⟩

/-- Sample options: ID and credentials present, zero token expiration, nil
clock, no handler, default QoS levels. -/
def sampleOptions : ThingOptions :=
  { id := some sampleID, credentials := some sampleCreds
    debugLogger := none, infoLogger := none, errorLogger := none
    logMQTT := false, queueDirectory := "", configHandler := none
    configQOS := 2, stateQOS := 1, eventQOS := 1
    authTokenExpiration := 0, clock := none }

/-- A sample connected paho client with an empty wire log. -/
def samplePaho : PahoState :=
  { innerExists := true, innerConnected := true, connectErr := none
    tokenErr := none, wire := [], subscribed := ["/devices/d/config"]
    brokers := ["ssl://mqtt.example.com:443"], clientID := ""
    credentialsProviderSet := true }

/-- A sample config handler that synchronously republishes the state
"ok" (bytes 111, 107), as in the repository's tests. -/
def okHandler : CHandler := fun _ => some [111, 107]

/-- A sample connected mock client whose config topic subscription carries
okHandler. -/
def sampleMockConnected : MockState :=
  { newMockClient with
    connected := true
    subs := [("/devices/d/config", some okHandler)] }

/-- String.intercalate's accumulator loop is a left fold. -/
theorem stringIntercalateGoEq (sep : String) (as : List String) (acc : String) :
    String.intercalate.go acc sep as
      = List.foldl (fun b a => b ++ sep ++ a) acc as := by
  induction as generalizing acc with
  | nil => rfl
  | cons a as ih => simp [String.intercalate.go, List.foldl, ih]

/-- The transliteration of Go's strings.Join agrees with the library
String.intercalate. -/
theorem goStringsJoin_eq_intercalate (sep : String) (xs : List String) :
    goStringsJoin xs sep = String.intercalate sep xs := by
  cases xs with
  | nil => rfl
  | cons x rest =>
      cases rest with
      | nil => rfl
      | cons y ys =>
          show List.foldl (fun b s => b ++ sep ++ s) x (y :: ys) = _
          rw [String.intercalate, stringIntercalateGoEq]

/-- Looking up the key just assigned in a Go-map model yields the assigned
value. -/
theorem mapLookup_mapSet_self {α : Type} (m : List (String × α)) (k : String)
    (v : α) : mapLookup (mapSet m k v) k = some v := by
  induction m with
  | nil => simp [mapSet, mapLookup]
  | cons kv rest ih =>
      obtain ⟨k0, v0⟩ := kv
      by_cases hk : k0 = k <;> simp [mapSet, mapLookup, hk, ih]

/-- Claim C1 counterexample: the claim says expiresAt − issuedAt equals the
configured AuthTokenExpiration clamped to [10 minutes, 24 hours], but for a
configured expiration of one minute the issued claims are one minute apart
while the clamp demands ten minutes: authToken performs no clamping. -/
theorem c1_claim_counterexample :
    ¬ ((authTokenClaims (1 * goMinute) "p" 0).expiresAt
          - (authTokenClaims (1 * goMinute) "p" 0).issuedAt
        = specClampedExpiration (1 * goMinute) / goSecond) := by decide

/-- Claim C1 amended: for a whole-second configured AuthTokenExpiration the
issued token's expiresAt − issuedAt (in seconds) equals the configured
value exactly — one hour when the configured value is zero, and no clamping
to [10 minutes, 24 hours] — and the audience is the identity's ProjectID. -/
theorem c1_token_interval (expiration : Int) (p : String) (now : Int)
    (h : goSecond ∣ expiration) :
    (authTokenClaims expiration p now).expiresAt
        - (authTokenClaims expiration p now).issuedAt
      = (if expiration = 0 then goHour else expiration) / goSecond
    ∧ (authTokenClaims expiration p now).audience = p := by
  obtain ⟨k, hk⟩ := h
  simp only [goSecond] at hk
  refine ⟨?_, rfl⟩
  simp only [authTokenClaims, unixOf, goSecond, goHour, goMinute]
  split_ifs <;> omega

/-- Witness for the amended claim C1 at a concrete in-range expiration of
ten minutes and a concrete clock reading. -/
theorem c1_token_interval_witness :
    goSecond ∣ (600 * goSecond)
    ∧ ((authTokenClaims (600 * goSecond) "proj" 123456789).expiresAt
          - (authTokenClaims (600 * goSecond) "proj" 123456789).issuedAt
        = (if (600 * goSecond : Int) = 0 then goHour else 600 * goSecond) / goSecond
      ∧ (authTokenClaims (600 * goSecond) "proj" 123456789).audience = "proj") :=
  ⟨⟨600, by norm_num [goSecond]⟩,
    c1_token_interval (600 * goSecond) "proj" 123456789 ⟨600, by norm_num [goSecond]⟩⟩

/-- Claim C7: for every identity the config topic is /devices/d/config, the
state topic /devices/d/state, the event topic /devices/d/events for no
segments and otherwise /devices/d/events/ followed by the segments joined
with slashes. -/
theorem c7_topic_formats (i : ID) :
    configTopic i = "/devices/" ++ i.deviceID ++ "/config"
    ∧ stateTopic i = "/devices/" ++ i.deviceID ++ "/state"
    ∧ eventsTopic i [] = "/devices/" ++ i.deviceID ++ "/events"
    ∧ ∀ segs : List String, segs ≠ [] →
        eventsTopic i segs
          = "/devices/" ++ i.deviceID ++ "/events/"
              ++ String.intercalate "/" segs := by
  refine ⟨rfl, rfl, rfl, ?_⟩
  intro segs h
  simp [eventsTopic, List.length_eq_zero, h, goStringsJoin_eq_intercalate]

/-- Witness for claim C7 at a two-segment event hierarchy. -/
theorem c7_topic_formats_witness :
    (["a", "b"] : List String) ≠ []
    ∧ eventsTopic ⟨"p", "l", "r", "d"⟩ ["a", "b"]
        = "/devices/" ++ "d" ++ "/events/" ++ String.intercalate "/" ["a", "b"] :=
  ⟨by decide, (c7_topic_formats ⟨"p", "l", "r", "d"⟩).2.2.2 ["a", "b"] (by decide)⟩

/-- Claim C9: the credentials-provider closure never propagates a signing
failure.  A malformed private key makes it return the pair of empty
strings; a well formed key makes authToken succeed and the provider return
username "unused" with the signed token as password. -/
theorem c9_provider_never_fails (creds : Credentials) (expiration : Int)
    (p : String) (now : Int) :
    (∀ r, creds.privateKey = .invalid r →
        credentialsProvider creds expiration p now = ("", ""))
    ∧ (∀ tag, creds.privateKey = .valid tag →
        ∃ tok, authToken creds expiration p now = .ok tok
          ∧ credentialsProvider creds expiration p now = ("unused", tok)) := by
  constructor
  · intro r h
    simp [credentialsProvider, authToken, signedString, h]
  · intro tag h
    have hA : authToken creds expiration p now
        = .ok (signingMethodOf creds.type ++ "."
            ++ toString (authTokenClaims expiration p now).issuedAt ++ "."
            ++ toString (authTokenClaims expiration p now).expiresAt ++ "."
            ++ (authTokenClaims expiration p now).audience ++ "."
            ++ toString tag) := by
      simp [authToken, signedString, h]
    exact ⟨_, hA, by simp [credentialsProvider, hA]⟩

/-- Witness for claim C9: a malformed key gives ("", ""). -/
theorem c9_provider_never_fails_witness :
    (Credentials.mk CredentialTypeRSA (.invalid "bad")).privateKey = .invalid "bad"
    ∧ credentialsProvider ⟨CredentialTypeRSA, .invalid "bad"⟩ 0 "p" 0 = ("", "") :=
  ⟨rfl, (c9_provider_never_fails ⟨CredentialTypeRSA, .invalid "bad"⟩ 0 "p" 0).1 "bad" rfl⟩

/-- Claim C2 (evidence of a code bug): on a fresh thing — Connect never
called, so publishTicker and client are both nil — PublishState and
PublishEvent crash on a nil dereference (the receive from the nil ticker)
instead of returning ErrNotConnected; no client publish is invoked and the
state is untouched, but the claimed NotConnected error is never
produced. -/
theorem c2_fresh_publish_crashes {σ : Type} (m : MQTTClientModel σ)
    (opts : ThingOptions) (ctxDone : Bool) (message : Bytes)
    (event : List String) :
    thingPublishState m ctxDone message ⟨opts, none, false⟩
        = (.crash, ⟨opts, none, false⟩, [])
    ∧ thingPublishEvent m ctxDone message event ⟨opts, none, false⟩
        = (.crash, ⟨opts, none, false⟩, []) := by
  constructor <;>
    cases h : opts.id <;>
      simp [thingPublishState, thingPublishEvent, thingPublish, h]

/-- Claim C4: Connect on an already connected thing returns nil
immediately, performs no client operation (in particular no connect and no
client replacement, the state is returned unchanged), and a further
Connect while still connected behaves identically. -/
theorem c4_connect_when_connected {σ : Type} (m : MQTTClientModel σ)
    (newC : ThingOptions → σ) (ctxDone : Bool)
    (servers followUp : List String) (st : ThingState σ)
    (h : thingIsConnected m st = true) :
    thingConnect m newC ctxDone servers st = (none, st, [])
    ∧ thingConnect m newC ctxDone followUp
        (thingConnect m newC ctxDone servers st).2.1 = (none, st, []) := by
  have h1 : thingConnect m newC ctxDone servers st = (none, st, []) := by
    simp [thingConnect, h]
  refine ⟨h1, ?_⟩
  rw [h1]
  simp [thingConnect, h]

/-- Witness for claim C4 on a concrete connected mock-backed thing. -/
theorem c4_connect_when_connected_witness :
    thingIsConnected mockModel ⟨sampleOptions, some sampleMockConnected, true⟩ = true
    ∧ (thingConnect mockModel (fun _ => newMockClient) false ["s1"]
          ⟨sampleOptions, some sampleMockConnected, true⟩
        = (none, ⟨sampleOptions, some sampleMockConnected, true⟩, [])
      ∧ thingConnect mockModel (fun _ => newMockClient) false ["s2"]
          ((thingConnect mockModel (fun _ => newMockClient) false ["s1"]
              ⟨sampleOptions, some sampleMockConnected, true⟩).2.1)
        = (none, ⟨sampleOptions, some sampleMockConnected, true⟩, [])) :=
  ⟨rfl, c4_connect_when_connected mockModel (fun _ => newMockClient) false
      ["s1"] ["s2"] ⟨sampleOptions, some sampleMockConnected, true⟩ rfl⟩

/-- Claim C5: Connect on a thing that is not connected and whose options
lack the ID or the Credentials returns ErrConfigurationError with the state
unchanged and no client operation performed (no construction, no
configuration, no connect). -/
theorem c5_missing_configuration {σ : Type} (m : MQTTClientModel σ)
    (newC : ThingOptions → σ) (ctxDone : Bool) (servers : List String)
    (st : ThingState σ)
    (hnc : thingIsConnected m st = false)
    (hmiss : st.opts.id = none ∨ st.opts.credentials = none) :
    thingConnect m newC ctxDone servers st
      = (some .configurationError, st, []) := by
  rcases hmiss with h | h
  · cases hc : st.opts.credentials <;> simp [thingConnect, hnc, h, hc]
  · cases hi : st.opts.id <;> simp [thingConnect, hnc, h, hi]

/-- Witness for claim C5 on a concrete unconfigured mock-backed thing. -/
theorem c5_missing_configuration_witness :
    thingIsConnected mockModel
        ⟨{ sampleOptions with id := none, credentials := none }, none, false⟩ = false
    ∧ (({ sampleOptions with id := none, credentials := none } : ThingOptions).id = none
        ∨ ({ sampleOptions with id := none, credentials := none } : ThingOptions).credentials = none)
    ∧ thingConnect mockModel (fun _ => newMockClient) false ["bad options"]
        ⟨{ sampleOptions with id := none, credentials := none }, none, false⟩
      = (some .configurationError,
          ⟨{ sampleOptions with id := none, credentials := none }, none, false⟩, []) :=
  ⟨rfl, Or.inl rfl,
    c5_missing_configuration mockModel (fun _ => newMockClient) false
      ["bad options"] _ rfl (Or.inl rfl)⟩

/-- Claim C3 counterexample: on a concrete connected paho-backed thing, a
PublishState whose context is already cancelled returns ErrCancelled, yet
the transport client's publish operation IS invoked and the message is
dispatched on the wire — refuting the claim that the publish operation is
never invoked for such a call. -/
theorem c3_claim_counterexample :
    (thingPublishState pahoModel true [1, 2]
        ⟨sampleOptions, some samplePaho, true⟩).1 = Outcome.fail .cancelled
    ∧ (thingPublishState pahoModel true [1, 2]
        ⟨sampleOptions, some samplePaho, true⟩).2.2
        = [ClientOp.publishOp "/devices/d/state"]
    ∧ (thingPublishState pahoModel true [1, 2]
        ⟨sampleOptions, some samplePaho, true⟩).2.1.client
        = some { samplePaho with wire := [("/devices/d/state", [1, 2])] } :=
  ⟨rfl, rfl, rfl⟩

/-- Claim C3 amended: on a connected paho-backed thing, a publish with an
already cancelled context returns ErrCancelled, but only after the rate
limit tick is consumed and the transport client's publish operation has
been invoked — the message is dispatched on the wire before the
cancellation is observed during the acknowledgement wait. -/
theorem c3_cancelled_publish (topic : String) (qos : Nat) (message : Bytes)
    (st : ThingState PahoState) (c : PahoState)
    (hcl : st.client = some c) (hconn : pahoIsConnected c = true)
    (htick : st.ticker = true) :
    thingPublish pahoModel true topic qos message st
      = (.fail .cancelled,
          { st with client := some { c with wire := c.wire ++ [(topic, message)] } },
          [.publishOp topic]) := by
  simp [thingPublish, htick, hcl, pahoModel, hconn, waitForToken, goErrOutcome]

/-- Witness for the amended claim C3 on a concrete connected paho state. -/
theorem c3_cancelled_publish_witness :
    (⟨sampleOptions, some samplePaho, true⟩ : ThingState PahoState).client
        = some samplePaho
    ∧ pahoIsConnected samplePaho = true
    ∧ (⟨sampleOptions, some samplePaho, true⟩ : ThingState PahoState).ticker = true
    ∧ thingPublish pahoModel true "/devices/d/state" 1 [1, 2]
        ⟨sampleOptions, some samplePaho, true⟩
      = (.fail .cancelled,
          { (⟨sampleOptions, some samplePaho, true⟩ : ThingState PahoState) with
              client := some { samplePaho with
                wire := samplePaho.wire ++ [("/devices/d/state", [1, 2])] } },
          [.publishOp "/devices/d/state"]) :=
  ⟨rfl, rfl, rfl,
    c3_cancelled_publish "/devices/d/state" 1 [1, 2] _ samplePaho rfl rfl rfl⟩

/-- Claim C6 counterexample: a thing holding a client that is NOT connected
(for instance after a connection loss or a previous Disconnect) is not
Connected, yet Disconnect still invokes the transport client's Unsubscribe
operation — refuting the claim that Disconnect is a no-op with no transport
client operation whenever the Thing is not Connected. -/
theorem c6_claim_counterexample :
    thingIsConnected mockModel ⟨sampleOptions, some newMockClient, true⟩ = false
    ∧ (thingDisconnect mockModel false
        ⟨sampleOptions, some newMockClient, true⟩).2.2
        = [ClientOp.unsubscribeOp "/devices/d/config"] :=
  ⟨rfl, rfl⟩

/-- Claim C6 amended: Disconnect never raises an error.  When no transport
client exists it is a no-op; when a client exists — connected or not — it
unsubscribes the configuration topic with any unsubscribe error ignored,
and then requests transport disconnect exactly when the client reports
itself connected. -/
theorem c6_disconnect_best_effort {σ : Type} (m : MQTTClientModel σ)
    (ctxDone : Bool) (st : ThingState σ) (i : ID)
    (hid : st.opts.id = some i) :
    (st.client = none → thingDisconnect m ctxDone st = (.ok, st, []))
    ∧ ∀ c, st.client = some c →
        (thingDisconnect m ctxDone st).1 = .ok
        ∧ (thingDisconnect m ctxDone st).2.2
            = (if m.isConnected (m.unsubscribe c ctxDone (configTopic i)).2
               then [ClientOp.unsubscribeOp (configTopic i), ClientOp.disconnectOp]
               else [ClientOp.unsubscribeOp (configTopic i)]) := by
  constructor
  · intro h
    simp [thingDisconnect, h]
  · intro c h
    by_cases hc : m.isConnected (m.unsubscribe c ctxDone (configTopic i)).2 <;>
      simp [thingDisconnect, h, hid, hc]

/-- Witness for the amended claim C6 on a concrete disconnected mock
client. -/
theorem c6_disconnect_best_effort_witness :
    (⟨sampleOptions, some newMockClient, true⟩ : ThingState MockState).opts.id
        = some sampleID
    ∧ ((thingDisconnect mockModel false
          ⟨sampleOptions, some newMockClient, true⟩).1 = .ok
      ∧ (thingDisconnect mockModel false
          ⟨sampleOptions, some newMockClient, true⟩).2.2
          = (if mockModel.isConnected
                (mockModel.unsubscribe newMockClient false (configTopic sampleID)).2
             then [ClientOp.unsubscribeOp (configTopic sampleID), ClientOp.disconnectOp]
             else [ClientOp.unsubscribeOp (configTopic sampleID)])) :=
  ⟨rfl,
    (c6_disconnect_best_effort mockModel false
        ⟨sampleOptions, some newMockClient, true⟩ sampleID rfl).2 newMockClient rfl⟩

/-- Claim C8: for a connected mock-backed thing whose configuration topic
subscription carries the caller-supplied handler, an inbound message on the
configuration topic invokes that handler exactly once with exactly the
delivered payload bytes, and if the handler synchronously calls
PublishState with some payload, that payload is appended to the messages
published on the state topic. -/
theorem c8_config_roundtrip (st : ThingState MockState) (c : MockState)
    (i : ID) (h : CHandler) (message : Bytes)
    (hcl : st.client = some c) (hconn : c.connected = true)
    (hid : st.opts.id = some i) (htick : st.ticker = true)
    (hsub : mapLookup c.subs (configTopic i) = some (some h)) :
    (mockReceive st (configTopic i) message).1 = [message]
    ∧ ∀ p, h message = some p →
        ((mockReceive st (configTopic i) message).2.client.map
            (fun c2 => mapLookup c2.messages (stateTopic i)))
          = some (some ((mapLookup c.messages (stateTopic i)).getD [] ++ [p])) := by
  have hkeep := hconn
  constructor
  · simp only [mockReceive, hcl, hsub]
    cases hp : h message <;> simp
  · intro p hp
    simp only [mockReceive, hcl, hsub, hp]
    simp only [thingPublishState, hid, thingPublish, htick, hcl]
    simp [mockModel, mockMessagesAppend, mapLookup_mapSet_self]

/-- Witness for claim C8: delivering the config payload [5] to a concrete
connected mock-backed thing invokes okHandler once with [5], and the "ok"
state bytes it republishes appear under the state topic. -/
theorem c8_config_roundtrip_witness :
    (⟨sampleOptions, some sampleMockConnected, true⟩ : ThingState MockState).client
        = some sampleMockConnected
    ∧ sampleMockConnected.connected = true
    ∧ mapLookup sampleMockConnected.subs (configTopic sampleID) = some (some okHandler)
    ∧ (mockReceive ⟨sampleOptions, some sampleMockConnected, true⟩
          (configTopic sampleID) [5]).1 = [[5]]
    ∧ ((mockReceive ⟨sampleOptions, some sampleMockConnected, true⟩
          (configTopic sampleID) [5]).2.client.map
            (fun c2 => mapLookup c2.messages (stateTopic sampleID)))
        = some (some ((mapLookup sampleMockConnected.messages
            (stateTopic sampleID)).getD [] ++ [[111, 107]])) := by
  have H := c8_config_roundtrip ⟨sampleOptions, some sampleMockConnected, true⟩
    sampleMockConnected sampleID okHandler [5] rfl rfl rfl rfl rfl
  exact ⟨rfl, rfl, rfl, H.1, H.2 [111, 107] rfl⟩

/-- Claim C10: a non-fast-path Connect (not connected, ID and Credentials
present) mutates the caller-shared options in place: a zero
AuthTokenExpiration becomes the one-hour default and a nil Clock becomes
the real system clock, while every other options field is left unchanged.
The options record carried by the returned state is the same object the
caller passed to New, so these writes remain visible to the caller. -/
theorem c10_connect_defaults_options {σ : Type} (m : MQTTClientModel σ)
    (newC : ThingOptions → σ) (ctxDone : Bool) (servers : List String)
    (st : ThingState σ) (i : ID) (cr : Credentials)
    (hnc : thingIsConnected m st = false)
    (hid : st.opts.id = some i) (hcr : st.opts.credentials = some cr) :
    (thingConnect m newC ctxDone servers st).2.1.opts
      = { st.opts with
          authTokenExpiration :=
            if st.opts.authTokenExpiration = 0 then defaultAuthTokenExpiration
            else st.opts.authTokenExpiration
          clock :=
            if st.opts.clock = none then some ClockModel.systemClock
            else st.opts.clock } := by
  simp only [thingConnect, hnc, Bool.false_eq_true, if_false, hid, hcr]
  split <;> simp

/-- Witness for claim C10: a fresh thing with zero expiration and nil clock
gets the defaults written into its options by Connect. -/
theorem c10_connect_defaults_options_witness :
    thingIsConnected mockModel ⟨sampleOptions, none, false⟩ = false
    ∧ (⟨sampleOptions, none, false⟩ : ThingState MockState).opts.id = some sampleID
    ∧ (⟨sampleOptions, none, false⟩ : ThingState MockState).opts.credentials
        = some sampleCreds
    ∧ (thingConnect mockModel (fun _ => newMockClient) false ["srv"]
          ⟨sampleOptions, none, false⟩).2.1.opts
      = { sampleOptions with
          authTokenExpiration :=
            if sampleOptions.authTokenExpiration = 0 then defaultAuthTokenExpiration
            else sampleOptions.authTokenExpiration
          clock :=
            if sampleOptions.clock = none then some ClockModel.systemClock
            else sampleOptions.clock } :=
  ⟨rfl, rfl, rfl,
    c10_connect_defaults_options mockModel (fun _ => newMockClient) false ["srv"]
      ⟨sampleOptions, none, false⟩ sampleID sampleCreds rfl rfl rfl⟩
